import Mathlib

set_option maxHeartbeats 1000000

/-! Shallow embedding of `src/hass_tui/websocket_client.py`
(`HomeAssistantWebSocket`).  Python dictionaries become association lists
over `Nat` keys, `asyncio.Future` objects become explicit `FutureState`
cells addressed by an allocation index (`next_future` plays the role of
object identity), and the asynchronous receive loop becomes a fold over
the list of inbound frames followed by the stream's ending condition.
Message payloads are opaque to the client and are modeled as strings. -/

abbrev Payload := String

/-- The `ConnectionState` enum of the source. -/
inductive ConnectionState where
  | DISCONNECTED
  | CONNECTING
  | AUTHENTICATING
  | CONNECTED
  | RECONNECTING
deriving DecidableEq, Repr

/-- The observable lifecycle of one `asyncio.Future` used as a pending
result slot: unresolved, `set_result(v)`, `set_exception(e)`, or
`cancel()`ed. -/
inductive FutureState where
  | pending
  | result (v : Option Payload)
  | exn (e : Option Payload)
  | cancelled
deriving DecidableEq, Repr

/-- A decoded inbound JSON object, restricted to the fields the client
reads: `data.get("type")`, `data.get("id")`, the truthiness of
`data.get("success")`, `data.get("result")`, `data.get("error")`, and
`data.get("event")`.  Absent fields are `none` (`success` absent is
falsy, hence `false`). -/
structure InMessage where
  mtype : Option String
  mid : Option Nat
  success : Bool
  result : Option Payload
  error : Option Payload
  event : Option Payload
deriving DecidableEq, Repr

/-- An inbound WebSocket frame: either one whose bytes `json.loads`
rejects (raising `JSONDecodeError`), or a decoded message. -/
inductive Frame where
  | malformed
  | ok (m : InMessage)
deriving DecidableEq, Repr

/-- How the inbound stream ends after the listed frames: the peer closes
cleanly (the `async for` ends normally), the iteration raises an I/O
error, or the task is cancelled (`asyncio.CancelledError`). -/
inductive StreamEnd where
  | closed
  | ioError
  | taskCancelled
deriving DecidableEq, Repr

/-- An outbound frame, restricted to the fields the embedding needs. -/
structure OutMessage where
  mid : Nat
  mtype : String
deriving DecidableEq, Repr

/-- Association-list lookup, the embedding of `d[k]` / `k in d`. -/
def alookup (k : Nat) : List (Nat × α) → Option α
  | [] => none
  | (k₁, v) :: rest => if k = k₁ then some v else alookup k rest

/-- Association-list removal, the embedding of `d.pop(k)` (and of
`d.pop(k, None)`, which is a no-op when `k` is absent). -/
def aerase (k : Nat) : List (Nat × α) → List (Nat × α)
  | [] => []
  | (k₁, v) :: rest => if k = k₁ then aerase k rest else (k₁, v) :: aerase k rest

/-- Association-list assignment, the embedding of `d[k] = v`: the new
binding shadows and removes any existing binding for `k`. -/
def ainsert (k : Nat) (v : α) (l : List (Nat × α)) : List (Nat × α) :=
  (k, v) :: aerase k l

/-- The mutable state of one `HomeAssistantWebSocket` instance:
`self.state`, `self._message_id`, `self._pending_requests`
(message id ↦ future), `self._event_callbacks` (subscription id ↦
callback), plus the model's ledger of every future ever created
(`futures`, keyed by allocation index) and its allocator
(`next_future`). Callbacks are identified by opaque `Nat` tokens. -/
structure ClientState where
  state : ConnectionState
  message_id : Nat
  next_future : Nat
  pending_requests : List (Nat × Nat)
  futures : List (Nat × FutureState)
  event_callbacks : List (Nat × Nat)
deriving DecidableEq, Repr

/-- `__init__`: disconnected, counter at 0, empty tables. -/
def initClient : ClientState :=
  { state := ConnectionState.DISCONNECTED
    message_id := 0
    next_future := 0
    pending_requests := []
    futures := []
    event_callbacks := [] }

/-- `_next_id`: `self._message_id += 1; return self._message_id`. -/
def next_id (s : ClientState) : Nat × ClientState :=
  (s.message_id + 1, { s with message_id := s.message_id + 1 })

/-- One callback invocation spawned by the event branch of the receive
loop: `asyncio.create_task(self._safe_callback(callback, event_data))`. -/
structure Delivery where
  callback : Nat
  event_data : Option Payload
deriving DecidableEq, Repr

/-- The body of `_receive_loop` for one successfully decoded message:
route by `type` to the result branch (pop the pending future and resolve
it), the event branch (spawn the registered callback, silently skipping
unknown subscription ids), the `pong` no-op branch, or the
log-a-warning-and-continue branch.  Returns the new state and the
spawned callback invocations. -/
def handle_message (s : ClientState) (m : InMessage) : ClientState × List Delivery :=
  if m.mtype = some "result" then
    match m.mid with
    | some i =>
      match alookup i s.pending_requests with
      | some fref =>
        let fs := if m.success then FutureState.result m.result else FutureState.exn m.error
        ({ s with pending_requests := aerase i s.pending_requests
                  futures := ainsert fref fs s.futures }, [])
      | none => (s, [])
    | none => (s, [])
  else if m.mtype = some "event" then
    match m.mid with
    | some i =>
      match alookup i s.event_callbacks with
      | some cb => (s, [⟨cb, m.event⟩])
      | none => (s, [])
    | none => (s, [])
  else if m.mtype = some "pong" then
    (s, [])
  else
    (s, [])

/-- `_receive_loop`: process inbound frames in order.  `json.loads`
raising on a malformed frame escapes the loop body into the
`except Exception` handler, which logs, sets the state to
`DISCONNECTED`, and ends the loop with the remaining frames unread.
When every frame has been consumed, the stream's ending decides the
branch: a clean close falls out of the `async for` with no handler run,
an I/O error takes the `except Exception` handler, and task cancellation
takes the `except asyncio.CancelledError` handler (log only).  No branch
touches `self._pending_requests` or `self._event_callbacks`. -/
def receive_loop (s : ClientState) : List Frame → StreamEnd → ClientState × List Delivery
  | [], ending =>
    match ending with
    | StreamEnd.closed => (s, [])
    | StreamEnd.ioError => ({ s with state := ConnectionState.DISCONNECTED }, [])
    | StreamEnd.taskCancelled => (s, [])
  | Frame.malformed :: _, _ =>
    ({ s with state := ConnectionState.DISCONNECTED }, [])
  | Frame.ok m :: rest, ending =>
    let step := handle_message s m
    let tail := receive_loop step.1 rest ending
    (tail.1, step.2 ++ tail.2)

/-- `_safe_callback`: run the callback on the data; any exception it
raises is caught and logged.  The behavior environment `beh` gives each
callback token's action on a payload; the return value is the logged
error message, if any — nothing ever propagates to the caller. -/
def safe_callback (beh : Nat → Option Payload → Except String Unit)
    (callback : Nat) (data : Option Payload) : Option String :=
  match beh callback data with
  | Except.ok _ => none
  | Except.error e => some e

/-- Running the spawned callback tasks of a loop pass in order: every
delivery is executed through `_safe_callback`, so an exception from one
callback cannot stop the later ones from running. -/
def run_deliveries (beh : Nat → Option Payload → Except String Unit) :
    List Delivery → List (Option String)
  | [] => []
  | d :: rest => safe_callback beh d.callback d.event_data :: run_deliveries beh rest

/-- Line 312 of the source: `self._pending_requests[msg_id] = future`,
a plain dictionary assignment registering the pending slot. -/
def register_pending (s : ClientState) (msg_id fref : Nat) : ClientState :=
  { s with pending_requests := ainsert msg_id fref s.pending_requests }

/-- The synchronous prefix of `send_command`: the state gate
(`raise Exception("Not connected")` when not `CONNECTED`), then
`msg_id = self._next_id()`, `future = asyncio.Future()`, the dictionary
assignment registering the slot, and the transmit.  Returns the possibly
updated state together with either the error or the sent message's id,
the wire message, and the created future's index. -/
def send_command_send (s : ClientState) (command_type : String) :
    ClientState × Except String (Nat × OutMessage × Nat) :=
  if s.state ≠ ConnectionState.CONNECTED then
    (s, Except.error "Not connected")
  else
    let ids := next_id s
    let msg_id := ids.1
    let fref := ids.2.next_future
    let s₁ := { ids.2 with next_future := fref + 1
                           futures := ainsert fref FutureState.pending ids.2.futures }
    (register_pending s₁ msg_id fref,
     Except.ok (msg_id, ⟨msg_id, command_type⟩, fref))

/-- The `except asyncio.TimeoutError` arm of `send_command`:
`asyncio.wait_for` has cancelled the still-unresolved future, and the
handler runs `self._pending_requests.pop(msg_id, None)` before raising
`Exception(f"Command {command_type} timed out")`.  Returns the cleaned
state and the exception's message. -/
def send_command_timeout (s : ClientState) (msg_id fref : Nat)
    (command_type : String) : ClientState × String :=
  ({ s with pending_requests := aerase msg_id s.pending_requests
            futures := ainsert fref FutureState.cancelled s.futures },
   "Command " ++ command_type ++ " timed out")

/-- `close`: cancel the receive task, close the socket, `cancel()` every
future still registered in `self._pending_requests` that is not done,
clear both tables, and set the state to `DISCONNECTED`.  (Futures no
longer in the table — already popped by resolution or timeout — are not
touched.) -/
def close (s : ClientState) : ClientState :=
  let refs := s.pending_requests.map (fun p => p.2)
  { s with
    state := ConnectionState.DISCONNECTED
    pending_requests := []
    event_callbacks := []
    futures := s.futures.map (fun p =>
      if p.1 ∈ refs ∧ p.2 = FutureState.pending then (p.1, FutureState.cancelled) else p) }

/-- `connect`, at the message level: the state is set to `CONNECTING`,
the transport handshake succeeds, `first` is the server's first message
and `authResp` the message received after the `auth` credential frame is
sent (with `AUTHENTICATING` entered in between).  Either `raise` inside
the `try` lands in the `except` handler, which logs, sets the state to
`DISCONNECTED`, and returns `False`; otherwise the state becomes
`CONNECTED`, the receive task starts, and `connect` returns `True`. -/
def connect (s : ClientState) (first authResp : InMessage) : ClientState × Bool :=
  if first.mtype ≠ some "auth_required" then
    ({ s with state := ConnectionState.DISCONNECTED }, false)
  else if authResp.mtype ≠ some "auth_ok" then
    ({ s with state := ConnectionState.DISCONNECTED }, false)
  else
    ({ s with state := ConnectionState.CONNECTED }, true)

/-- `ping`: `msg_id = self._next_id()` then send `{"id": msg_id,
"type": "ping"}`.  No future is created, nothing is registered, and the
caller does not wait for any reply. -/
def ping (s : ClientState) : ClientState × OutMessage :=
  let idm := next_id s
  (idm.2, ⟨idm.1, "ping"⟩)

/-- `subscribe_events` in a sequential run: `send_command
("subscribe_events", ...)` allocates and sends under a fresh id; while
the caller awaits, the receive loop processes the server's successful
`result` frame for that id (resolving the future); then
`subscription_id = self._next_id()` draws the next value from the same
counter, and the callback (when given) is registered under it.  Returns
the command id, the subscription id, and the final state. -/
def subscribe_events (s : ClientState) (callback : Option Nat) :
    Except String (Nat × Nat × ClientState) :=
  match (send_command_send s "subscribe_events").2 with
  | Except.error e => Except.error e
  | Except.ok (cmd_id, _out, _fref) =>
    let s₁ := (send_command_send s "subscribe_events").1
    let s₂ := (handle_message s₁ ⟨some "result", some cmd_id, true, none, none, none⟩).1
    let ids := next_id s₂
    let s₃ := match callback with
      | some cb => { ids.2 with event_callbacks := ainsert ids.1 cb ids.2.event_callbacks }
      | none => ids.2
    Except.ok (cmd_id, ids.1, s₃)

/-- Every message id registered in the correlation table is at most the
counter's current value — the reachable-state invariant under which the
next allocated id is fresh. -/
def ids_bounded (s : ClientState) : Prop :=
  ∀ p ∈ s.pending_requests, p.1 ≤ s.message_id

instance (s : ClientState) : Decidable (ids_bounded s) := by
  unfold ids_bounded; infer_instance

/-! Helper lemmas about the association-list operations. -/

theorem alookup_aerase_self (k : Nat) (l : List (Nat × α)) :
    alookup k (aerase k l) = none := by
  induction l with
  | nil => rfl
  | cons p rest ih =>
    obtain ⟨k₁, v⟩ := p
    by_cases h : k = k₁
    · simpa [aerase, h] using ih
    · simp [aerase, h, alookup, ih]

theorem alookup_aerase_ne (j k : Nat) (l : List (Nat × α)) (h : j ≠ k) :
    alookup j (aerase k l) = alookup j l := by
  induction l with
  | nil => rfl
  | cons p rest ih =>
    obtain ⟨k₁, v⟩ := p
    by_cases hk : k = k₁
    · subst hk
      simp [aerase, alookup, h, ih]
    · by_cases hj : j = k₁
      · simp [aerase, hk, alookup, hj]
      · simp [aerase, hk, alookup, hj, ih]

theorem alookup_ainsert_self (k : Nat) (v : α) (l : List (Nat × α)) :
    alookup k (ainsert k v l) = some v := by
  simp [ainsert, alookup]

theorem alookup_ainsert_ne (j k : Nat) (v : α) (l : List (Nat × α)) (h : j ≠ k) :
    alookup j (ainsert k v l) = alookup j l := by
  simp [ainsert, alookup, h, alookup_aerase_ne j k l h]

theorem alookup_mem (k : Nat) (v : α) (l : List (Nat × α))
    (h : alookup k l = some v) : (k, v) ∈ l := by
  induction l with
  | nil => simp [alookup] at h
  | cons p rest ih =>
    obtain ⟨k₁, v₁⟩ := p
    by_cases hk : k = k₁
    · subst hk
      simp [alookup] at h
      simp [h]
    · simp [alookup, hk] at h
      exact List.mem_cons_of_mem _ (ih h)

theorem mem_aerase (k : Nat) (p : Nat × α) (l : List (Nat × α))
    (h : p ∈ aerase k l) : p ∈ l := by
  induction l with
  | nil => simp [aerase] at h
  | cons q rest ih =>
    obtain ⟨k₁, v⟩ := q
    by_cases hk : k = k₁
    · simp only [aerase, if_pos hk] at h
      exact List.mem_cons_of_mem _ (ih h)
    · simp only [aerase, if_neg hk, List.mem_cons] at h
      rcases h with h | h
      · simp [h]
      · exact List.mem_cons_of_mem _ (ih h)

theorem alookup_gt_none (n : Nat) (l : List (Nat × α))
    (hb : ∀ p ∈ l, p.1 ≤ n) : alookup (n + 1) l = none := by
  induction l with
  | nil => rfl
  | cons p rest ih =>
    obtain ⟨k, v⟩ := p
    have hk : k ≤ n := hb (k, v) (List.mem_cons_self _ _)
    have hne : n + 1 ≠ k := by omega
    simp only [alookup, if_neg hne]
    exact ih (fun q hq => hb q (List.mem_cons_of_mem _ hq))

theorem alookup_cancel_map (refs : List Nat) (fref : Nat)
    (l : List (Nat × FutureState)) (hmem : fref ∈ refs)
    (h : alookup fref l = some FutureState.pending) :
    alookup fref (l.map (fun p =>
      if p.1 ∈ refs ∧ p.2 = FutureState.pending then (p.1, FutureState.cancelled) else p)) =
      some FutureState.cancelled := by
  induction l with
  | nil => simp [alookup] at h
  | cons p rest ih =>
    obtain ⟨k, v⟩ := p
    by_cases hk : fref = k
    · subst hk
      have hv : v = FutureState.pending := by simpa [alookup] using h
      subst hv
      rw [List.map_cons,
        if_pos (⟨hmem, rfl⟩ :
          (fref, FutureState.pending).1 ∈ refs ∧
            (fref, FutureState.pending).2 = FutureState.pending)]
      simp [alookup]
    · simp only [alookup, if_neg hk] at h
      by_cases hc : k ∈ refs ∧ v = FutureState.pending
      · rw [List.map_cons, if_pos hc]
        simpa [alookup, hk] using ih h
      · rw [List.map_cons, if_neg hc]
        simpa [alookup, hk] using ih h

/-! Claims. -/

/-- Claim C1 counterexample: in a connected state with one outstanding
request (id 1, future 0), the stream delivers a malformed frame followed
by a well-formed `result` frame for id 1.  Contrary to the claim, the
decode failure changes the connection state (to `DISCONNECTED`) and
terminates the loop: the subsequent result frame is never processed, so
id 1 is still in the correlation table and its future is still pending. -/
theorem C1_counterexample :
    (receive_loop
        ⟨ConnectionState.CONNECTED, 1, 1, [(1, 0)], [(0, FutureState.pending)], []⟩
        [Frame.malformed,
         Frame.ok ⟨some "result", some 1, true, some "v", none, none⟩]
        StreamEnd.closed).1.state ≠ ConnectionState.CONNECTED ∧
    alookup 1 (receive_loop
        ⟨ConnectionState.CONNECTED, 1, 1, [(1, 0)], [(0, FutureState.pending)], []⟩
        [Frame.malformed,
         Frame.ok ⟨some "result", some 1, true, some "v", none, none⟩]
        StreamEnd.closed).1.pending_requests = some 0 ∧
    alookup 0 (receive_loop
        ⟨ConnectionState.CONNECTED, 1, 1, [(1, 0)], [(0, FutureState.pending)], []⟩
        [Frame.malformed,
         Frame.ok ⟨some "result", some 1, true, some "v", none, none⟩]
        StreamEnd.closed).1.futures = some FutureState.pending := by
  refine ⟨?_, rfl, rfl⟩
  decide

/-- Claim C1 (amended): a malformed inbound frame raises out of the loop
body into the outer `except Exception` handler, which logs the failure,
terminates the receive loop — the remaining frames are never processed —
and sets the connection state to `DISCONNECTED`; the correlation table,
the futures, and the subscription registry are left unchanged, and no
callback is delivered. -/
theorem C1_amended (s : ClientState) (rest : List Frame) (ending : StreamEnd) :
    receive_loop s (Frame.malformed :: rest) ending =
      ({ s with state := ConnectionState.DISCONNECTED }, []) := rfl

/-- Claim C2 counterexample: a connected state with one outstanding
request (id 1, future 0).  If the inbound stream ends cleanly the loop
exits without touching anything: the state is still `CONNECTED` (not
`DISCONNECTED`) and the pending future is still unresolved.  If the
stream ends with an I/O error the state does become `DISCONNECTED`, but
the outstanding future is again left pending — it is not resolved with a
`ConnectionClosed` (cancellation) error, so the claim's resolve-all
guarantee fails in both exit modes. -/
theorem C2_counterexample :
    (receive_loop
        ⟨ConnectionState.CONNECTED, 1, 1, [(1, 0)], [(0, FutureState.pending)], []⟩
        [] StreamEnd.closed).1.state = ConnectionState.CONNECTED ∧
    alookup 0 (receive_loop
        ⟨ConnectionState.CONNECTED, 1, 1, [(1, 0)], [(0, FutureState.pending)], []⟩
        [] StreamEnd.closed).1.futures = some FutureState.pending ∧
    (receive_loop
        ⟨ConnectionState.CONNECTED, 1, 1, [(1, 0)], [(0, FutureState.pending)], []⟩
        [] StreamEnd.ioError).1.state = ConnectionState.DISCONNECTED ∧
    alookup 0 (receive_loop
        ⟨ConnectionState.CONNECTED, 1, 1, [(1, 0)], [(0, FutureState.pending)], []⟩
        [] StreamEnd.ioError).1.futures = some FutureState.pending := by
  exact ⟨rfl, rfl, rfl, rfl⟩

/-- Claim C2 (amended): when the receive loop exits on an I/O error it
sets the connection state to `DISCONNECTED` but resolves no Pending
Request — the correlation table and every outstanding future are left
exactly as they were; when the inbound stream ends cleanly the loop
exits without changing anything at all.  Outstanding requests are only
cancelled by `close()`, which cancels every still-pending registered
future, clears both tables, and sets the state to `DISCONNECTED`. -/
theorem C2_amended (s : ClientState) :
    receive_loop s [] StreamEnd.ioError =
      ({ s with state := ConnectionState.DISCONNECTED }, []) ∧
    receive_loop s [] StreamEnd.closed = (s, []) ∧
    (close s).state = ConnectionState.DISCONNECTED ∧
    (close s).pending_requests = [] ∧
    (∀ id fref, alookup id s.pending_requests = some fref →
      alookup fref s.futures = some FutureState.pending →
      alookup fref (close s).futures = some FutureState.cancelled) := by
  refine ⟨rfl, rfl, rfl, rfl, ?_⟩
  intro id fref hp hf
  have hmem : fref ∈ s.pending_requests.map (fun p => p.2) :=
    List.mem_map_of_mem _ (alookup_mem id fref s.pending_requests hp)
  exact alookup_cancel_map _ fref s.futures hmem hf

/-- Claim C2 witness: the amended claim at the connected state with one
outstanding request (id 1, future 0): `close()` cancels that future. -/
theorem C2_witness :
    alookup 0 (close
      ⟨ConnectionState.CONNECTED, 1, 1, [(1, 0)], [(0, FutureState.pending)], []⟩).futures =
      some FutureState.cancelled :=
  (C2_amended
    ⟨ConnectionState.CONNECTED, 1, 1, [(1, 0)], [(0, FutureState.pending)], []⟩).2.2.2.2
    1 0 rfl rfl

/-- Claim C3: for a call whose response never arrives (its identifier is
registered in the correlation table), the timeout arm of `send_command`
raises the `Command ... timed out` error and pops the identifier from the
table; every other registered identifier keeps its slot; and a `result`
frame arriving for that identifier after the cleanup is a complete no-op
for the receive loop — it raises nothing and changes neither the tables
nor any other Pending Request. -/
theorem C3_timeout (s : ClientState) (id fref : Nat) (t : String)
    (hp : alookup id s.pending_requests = some fref) :
    (send_command_timeout s id fref t).2 = "Command " ++ t ++ " timed out" ∧
    alookup id (send_command_timeout s id fref t).1.pending_requests = none ∧
    (∀ j, j ≠ id → alookup j (send_command_timeout s id fref t).1.pending_requests =
      alookup j s.pending_requests) ∧
    (∀ m : InMessage, m.mtype = some "result" → m.mid = some id →
      handle_message (send_command_timeout s id fref t).1 m =
        ((send_command_timeout s id fref t).1, [])) := by
  refine ⟨rfl, ?_, ?_, ?_⟩
  · simpa [send_command_timeout] using alookup_aerase_self id s.pending_requests
  · intro j hj
    simpa [send_command_timeout] using alookup_aerase_ne j id s.pending_requests hj
  · intro m hm hid
    have hl : alookup id (send_command_timeout s id fref t).1.pending_requests = none := by
      simpa [send_command_timeout] using alookup_aerase_self id s.pending_requests
    unfold handle_message
    rw [if_pos hm, hid]
    simp [hl]

/-- Claim C3 witness: the theorem at the connected state with id 1
outstanding (future 0): after the timeout cleanup of the `get_states`
call, a late `result` frame for id 1 is a complete no-op. -/
theorem C3_witness :
    handle_message (send_command_timeout
      ⟨ConnectionState.CONNECTED, 1, 1, [(1, 0)], [(0, FutureState.pending)], []⟩
      1 0 "get_states").1 ⟨some "result", some 1, true, none, none, none⟩ =
      ((send_command_timeout
        ⟨ConnectionState.CONNECTED, 1, 1, [(1, 0)], [(0, FutureState.pending)], []⟩
        1 0 "get_states").1, []) :=
  (C3_timeout
    ⟨ConnectionState.CONNECTED, 1, 1, [(1, 0)], [(0, FutureState.pending)], []⟩
    1 0 "get_states" rfl).2.2.2 ⟨some "result", some 1, true, none, none, none⟩ rfl rfl

/-- Claim C4: whenever the connection state is anything but `CONNECTED`,
`send_command` raises `Not connected` immediately and returns the state
untouched — no pending slot is registered and the identifier counter is
not consumed; in particular the `DISCONNECTED` state produced by
`close()` makes every subsequent `send_command` fail the same way. -/
theorem C4_not_connected (s : ClientState) (t : String)
    (h : s.state ≠ ConnectionState.CONNECTED) :
    send_command_send s t = (s, Except.error "Not connected") ∧
    (∀ s' : ClientState, send_command_send (close s') t =
      (close s', Except.error "Not connected")) := by
  constructor
  · simp [send_command_send, h]
  · intro s'
    simp [send_command_send, close]

/-- Claim C4 witness: the theorem at the freshly initialized
(disconnected) client. -/
theorem C4_witness :
    send_command_send initClient "get_states" =
      (initClient, Except.error "Not connected") :=
  (C4_not_connected initClient "get_states" (by decide)).1

/-- Message handling only ever touches the correlation table and the
futures ledger: the connection state, the identifier counter, the future
allocator and the subscription registry are preserved by every branch of
the receive loop body. -/
theorem handle_message_preserves (s : ClientState) (m : InMessage) :
    (handle_message s m).1.state = s.state ∧
    (handle_message s m).1.message_id = s.message_id ∧
    (handle_message s m).1.next_future = s.next_future ∧
    (handle_message s m).1.event_callbacks = s.event_callbacks := by
  unfold handle_message
  repeat' split
  all_goals exact ⟨rfl, rfl, rfl, rfl⟩

/-- Claim C5: every successful `send_command` dispatch allocates the
identifier `message_id + 1` — strictly greater than the counter's value,
hence strictly greater than every previously allocated identifier — and
leaves the counter equal to the identifier just allocated; under the
invariant that all registered identifiers are bounded by the counter
(true in every reachable state), the allocated identifier is not among
the currently-unresolved Pending Requests, and the invariant is
preserved.  Resolution removes the slot before setting the result, so
processing the same `result` frame a second time is a no-op: each
Pending Request is resolved at most once.  Message handling never
touches the counter. -/
theorem C5_identifiers :
    (∀ s t s' r, send_command_send s t = (s', Except.ok r) →
      r.1 = s.message_id + 1 ∧ s'.message_id = r.1 ∧
      (ids_bounded s → alookup r.1 s.pending_requests = none ∧ ids_bounded s')) ∧
    (∀ s m, (handle_message s m).1.message_id = s.message_id) ∧
    (∀ s m, m.mtype = some "result" →
      handle_message (handle_message s m).1 m = ((handle_message s m).1, [])) := by
  refine ⟨?_, ?_, ?_⟩
  · intro s t s' r h
    by_cases hc : s.state = ConnectionState.CONNECTED
    · rw [send_command_send, if_neg (by simp [hc])] at h
      have hr : r = (s.message_id + 1, ⟨s.message_id + 1, t⟩, s.next_future) := by
        have := congrArg Prod.snd h
        simpa [next_id, register_pending] using this.symm
      have hs : s' = register_pending
          { next_id s |>.2 with next_future := s.next_future + 1
                                futures := ainsert s.next_future FutureState.pending s.futures }
          (s.message_id + 1) s.next_future := by
        have := congrArg Prod.fst h
        simpa [next_id] using this.symm
      subst hr
      refine ⟨rfl, ?_, ?_⟩
      · rw [hs]; rfl
      · intro hb
        refine ⟨alookup_gt_none s.message_id s.pending_requests hb, ?_⟩
        intro p hp
        rw [hs] at hp
        simp only [register_pending, ainsert, next_id, List.mem_cons] at hp
        rcases hp with hp | hp
        · subst hp
          simp [register_pending, next_id, hs]
        · have hmem : p ∈ s.pending_requests := mem_aerase _ p _ hp
          have := hb p hmem
          have hsm : s'.message_id = s.message_id + 1 := by rw [hs]; rfl
          omega
    · rw [send_command_send, if_pos (by simp [hc])] at h
      exact absurd (congrArg Prod.snd h) (by simp)
  · intro s m
    exact (handle_message_preserves s m).2.1
  · intro s m hm
    cases hid : m.mid with
    | none => simp [handle_message, hm, hid]
    | some i =>
      cases hl : alookup i s.pending_requests with
      | none => simp [handle_message, hm, hid, hl]
      | some fref => simp [handle_message, hm, hid, hl, alookup_aerase_self]

/-- Claim C5 witness: the dispatch part of the theorem at a connected
state whose counter is 1 and whose table holds id 1: the freshly
allocated id 2 is absent from the table. -/
theorem C5_witness :
    alookup 2 ([(1, 0)] : List (Nat × Nat)) = none :=
  ((C5_identifiers.1
    ⟨ConnectionState.CONNECTED, 1, 1, [(1, 0)], [(0, FutureState.pending)], []⟩
    "get_states"
    ⟨ConnectionState.CONNECTED, 2, 2, [(2, 1), (1, 0)],
      [(1, FutureState.pending), (0, FutureState.pending)], []⟩
    (2, ⟨2, "get_states"⟩, 1) rfl).2.2 (by decide)).1

/-- Claim C6: in a sequential run from a connected state,
`subscribe_events` sends the subscribe command under the freshly
allocated identifier `message_id + 1` and, only after that command's
result has arrived, draws the registration identifier from the same
counter: the callback is registered under `message_id + 2`, which equals
the subscribe command's identifier plus one and never equals the
identifier the command was sent under; the counter afterwards equals the
registered identifier. -/
theorem C6_subscription_id (s : ClientState) (cb : Nat)
    (h : s.state = ConnectionState.CONNECTED) :
    Except.map (fun r => (r.1, r.2.1)) (subscribe_events s (some cb)) =
      Except.ok (s.message_id + 1, s.message_id + 2) ∧
    s.message_id + 2 = (s.message_id + 1) + 1 ∧
    Except.map (fun r => alookup r.2.1 r.2.2.event_callbacks)
      (subscribe_events s (some cb)) = Except.ok (some cb) ∧
    Except.map (fun r => r.2.2.message_id) (subscribe_events s (some cb)) =
      Except.ok (s.message_id + 2) ∧
    Except.map (fun r => decide (r.2.1 = r.1)) (subscribe_events s (some cb)) =
      Except.ok false := by
  have h' : ¬ s.state ≠ ConnectionState.CONNECTED := by simp [h]
  refine ⟨?_, rfl, ?_, ?_, ?_⟩ <;>
    simp [subscribe_events, send_command_send, h', next_id, register_pending,
      handle_message, alookup_ainsert_self, Except.map]

/-- Claim C6 witness: the theorem at a connected client with counter 0:
the subscribe command goes out under id 1 and the callback is registered
under id 2. -/
theorem C6_witness :
    Except.map (fun r => (r.1, r.2.1))
      (subscribe_events ⟨ConnectionState.CONNECTED, 0, 0, [], [], []⟩ (some 7)) =
      Except.ok (1, 2) :=
  (C6_subscription_id ⟨ConnectionState.CONNECTED, 0, 0, [], [], []⟩ 7 rfl).1

/-- Claim C7 counterexample: a state whose correlation table already
maps id 5 to future 0.  Running the registration step (the dictionary
assignment of the source) again for id 5 with future 1 does not fail —
the operation is total and no `DuplicateIdentifier` error exists
anywhere in the code — it silently replaces the slot: the table now maps
5 to the new future and the old binding is gone. -/
theorem C7_counterexample :
    (register_pending
      ⟨ConnectionState.CONNECTED, 5, 2, [(5, 0)],
        [(0, FutureState.pending), (1, FutureState.pending)], []⟩
      5 1).pending_requests = [(5, 1)] ∧
    alookup 5 (register_pending
      ⟨ConnectionState.CONNECTED, 5, 2, [(5, 0)],
        [(0, FutureState.pending), (1, FutureState.pending)], []⟩
      5 1).pending_requests = some 1 := by
  exact ⟨rfl, rfl⟩

/-- Claim C7 (amended): registering a pending slot under an identifier
that is already registered silently replaces the existing slot — the
registration is a plain dictionary assignment with no duplicate check
and no `DuplicateIdentifier` failure — while every other identifier's
slot is untouched; the duplicate case never arises through
`send_command`, which always registers the freshly incremented counter
value, absent from the table in any state where registered identifiers
are bounded by the counter. -/
theorem C7_amended (s : ClientState) (id fref : Nat) :
    alookup id (register_pending s id fref).pending_requests = some fref ∧
    (∀ j, j ≠ id → alookup j (register_pending s id fref).pending_requests =
      alookup j s.pending_requests) ∧
    (∀ t s' r, ids_bounded s → send_command_send s t = (s', Except.ok r) →
      alookup r.1 s.pending_requests = none) := by
  refine ⟨alookup_ainsert_self id fref s.pending_requests, ?_, ?_⟩
  · intro j hj
    exact alookup_ainsert_ne j id fref s.pending_requests hj
  · intro t s' r hb hsend
    by_cases hc : s.state = ConnectionState.CONNECTED
    · rw [send_command_send, if_neg (by simp [hc])] at hsend
      have hr : r = (s.message_id + 1, ⟨s.message_id + 1, t⟩, s.next_future) := by
        have := congrArg Prod.snd hsend
        simpa [next_id, register_pending] using this.symm
      rw [hr]
      exact alookup_gt_none s.message_id s.pending_requests hb
    · rw [send_command_send, if_pos (by simp [hc])] at hsend
      exact absurd (congrArg Prod.snd hsend) (by simp)

/-- Claim C7 witness: the amended claim at a connected state whose
counter is 5 and whose table holds id 5: a dispatch from that state
registers the fresh id 6, absent from the table. -/
theorem C7_witness :
    alookup 6 ([(5, 0)] : List (Nat × Nat)) = none :=
  (C7_amended
    ⟨ConnectionState.CONNECTED, 5, 2, [(5, 0)],
      [(0, FutureState.pending), (1, FutureState.pending)], []⟩
    5 1).2.2 "get_states"
    ⟨ConnectionState.CONNECTED, 6, 3, [(6, 2), (5, 0)],
      [(2, FutureState.pending), (0, FutureState.pending), (1, FutureState.pending)], []⟩
    (6, ⟨6, "get_states"⟩, 2) (by decide) rfl

/-- Claim C8: `connect` returns true with the state `CONNECTED` exactly
when the server's first message is the `auth_required` challenge and the
message received after the credential is sent is `auth_ok`; a first
message of any other type (the unexpected-handshake case) and an
`auth_invalid` auth result both make `connect` return false with the
state `DISCONNECTED`. -/
theorem C8_handshake (s : ClientState) (first authResp : InMessage) :
    (connect s first authResp = ({ s with state := ConnectionState.CONNECTED }, true) ↔
      first.mtype = some "auth_required" ∧ authResp.mtype = some "auth_ok") ∧
    (first.mtype ≠ some "auth_required" →
      connect s first authResp = ({ s with state := ConnectionState.DISCONNECTED }, false)) ∧
    (authResp.mtype = some "auth_invalid" →
      connect s first authResp = ({ s with state := ConnectionState.DISCONNECTED }, false)) := by
  refine ⟨⟨?_, ?_⟩, ?_, ?_⟩
  · intro h
    by_cases h1 : first.mtype = some "auth_required"
    · by_cases h2 : authResp.mtype = some "auth_ok"
      · exact ⟨h1, h2⟩
      · rw [connect, if_neg (by simp [h1]), if_pos h2] at h
        exact absurd (congrArg Prod.snd h) (by simp)
    · rw [connect, if_pos h1] at h
      exact absurd (congrArg Prod.snd h) (by simp)
  · rintro ⟨h1, h2⟩
    rw [connect, if_neg (by simp [h1]), if_neg (by simp [h2])]
  · intro h1
    rw [connect, if_pos h1]
  · intro h2
    by_cases h1 : first.mtype = some "auth_required"
    · have hne : authResp.mtype ≠ some "auth_ok" := by rw [h2]; decide
      rw [connect, if_neg (by simp [h1]), if_pos hne]
    · rw [connect, if_pos h1]

/-- Claim C8 witness: the theorem at a disconnected client whose server
answers the challenge correctly but rejects the credential with
`auth_invalid`: `connect` returns false and the state is
`DISCONNECTED`. -/
theorem C8_witness :
    connect initClient ⟨some "auth_required", none, false, none, none, none⟩
        ⟨some "auth_invalid", none, false, none, none, none⟩ =
      ({ initClient with state := ConnectionState.DISCONNECTED }, false) :=
  (C8_handshake initClient ⟨some "auth_required", none, false, none, none, none⟩
    ⟨some "auth_invalid", none, false, none, none, none⟩).2.2 rfl

/-- Claim C9: an exception raised by a subscription callback is caught
by `_safe_callback` and surfaces only as a logged message — it never
propagates into the receive loop; every spawned delivery runs regardless
of how earlier callbacks behaved, so a failing callback cannot prevent
subsequent events (to the same subscription or to others) from being
delivered; an event frame never changes the client state, so the rest of
the stream is processed exactly as before; and an event frame whose
subscription identifier is not registered is silently ignored — no
exception, no state change, no delivery. -/
theorem C9_callback_safety :
    (∀ beh cb d e, beh cb d = Except.error e → safe_callback beh cb d = some e) ∧
    (∀ beh ds, (run_deliveries beh ds).length = ds.length) ∧
    (∀ (s : ClientState) (m : InMessage), m.mtype = some "event" →
      (handle_message s m).1 = s) ∧
    (∀ (s : ClientState) (m : InMessage) i, m.mtype = some "event" → m.mid = some i →
      alookup i s.event_callbacks = none → handle_message s m = (s, [])) := by
  refine ⟨?_, ?_, ?_, ?_⟩
  · intro beh cb d e h
    simp [safe_callback, h]
  · intro beh ds
    induction ds with
    | nil => rfl
    | cons d rest ih => simp [run_deliveries, ih]
  · intro s m hm
    have hne : m.mtype ≠ some "result" := by rw [hm]; decide
    unfold handle_message
    rw [if_neg hne, if_pos hm]
    cases m.mid with
    | none => rfl
    | some i =>
      cases h : alookup i s.event_callbacks with
      | none => simp [h]
      | some cb => simp [h]
  · intro s m i hm hid hl
    have hne : m.mtype ≠ some "result" := by rw [hm]; decide
    unfold handle_message
    rw [if_neg hne, if_pos hm, hid]
    simp [hl]

/-- Claim C9 witness: the theorem at a callback behavior that always
raises: the failure of callback 7 on the event payload is logged, not
raised, and an event frame for the unregistered subscription id 9 on a
client that only knows id 5 is a no-op. -/
theorem C9_witness :
    safe_callback (fun _ _ => Except.error "boom") 7 (some "x") = some "boom" ∧
    handle_message ⟨ConnectionState.CONNECTED, 1, 1, [], [], [(5, 7)]⟩
        ⟨some "event", some 9, false, none, none, some "x"⟩ =
      (⟨ConnectionState.CONNECTED, 1, 1, [], [], [(5, 7)]⟩, []) :=
  ⟨C9_callback_safety.1 (fun _ _ => Except.error "boom") 7 (some "x") "boom" rfl,
   C9_callback_safety.2.2.2 ⟨ConnectionState.CONNECTED, 1, 1, [], [], [(5, 7)]⟩
     ⟨some "event", some 9, false, none, none, some "x"⟩ 9 rfl rfl rfl⟩

/-- Claim C10: `ping` increments the shared monotonic counter by one and
produces the keepalive frame `{"id": msg_id, "type": "ping"}`, changing
nothing else — the correlation table, the futures, the subscription
registry and the connection state are untouched and no pending slot is
registered, so the caller never awaits a reply; and an inbound `pong`
frame is handled as a complete no-op: no state change and no delivery. -/
theorem C10_ping (s : ClientState) :
    ping s = ({ s with message_id := s.message_id + 1 },
      ⟨s.message_id + 1, "ping"⟩) ∧
    (ping s).1.pending_requests = s.pending_requests ∧
    (ping s).1.futures = s.futures ∧
    (ping s).1.event_callbacks = s.event_callbacks ∧
    (ping s).1.state = s.state ∧
    (∀ m : InMessage, m.mtype = some "pong" → handle_message s m = (s, [])) := by
  refine ⟨rfl, rfl, rfl, rfl, rfl, ?_⟩
  intro m hm
  have hne₁ : m.mtype ≠ some "result" := by rw [hm]; decide
  have hne₂ : m.mtype ≠ some "event" := by rw [hm]; decide
  unfold handle_message
  rw [if_neg hne₁, if_neg hne₂, if_pos hm]

/-- Claim C10 witness: the theorem at a connected client with one
pending request: `ping` only bumps the counter, and a `pong` frame
changes nothing. -/
theorem C10_witness :
    handle_message ⟨ConnectionState.CONNECTED, 1, 1, [(1, 0)], [(0, FutureState.pending)], []⟩
        ⟨some "pong", some 2, false, none, none, none⟩ =
      (⟨ConnectionState.CONNECTED, 1, 1, [(1, 0)], [(0, FutureState.pending)], []⟩, []) :=
  (C10_ping ⟨ConnectionState.CONNECTED, 1, 1, [(1, 0)], [(0, FutureState.pending)], []⟩).2.2.2.2.2
    ⟨some "pong", some 2, false, none, none, none⟩ rfl
